import Mathlib

/-!
Shallow embedding of the automation-application layer of the efflux-tracker
repository: `src/services/audio/module-automation.js` together with the
`toHex` helper (number-util, second module of `src/js/config/Config.js`).

Numbers are modelled as exact rationals.  Where an observable result depends
on IEEE-754 binary64 rounding (the `value * RESOLUTION` product inside
`toHex`), that rounding step is modelled explicitly by `roundToDouble`.
Mutation of Web Audio objects is modelled by returning updated state
together with an ordered trace of the calls made on the audio objects
(`ParamAction` for calls on one `AudioParam`, `Effect` for everything the
dispatch path emits).
-/

namespace ModuleAutomation

/-- The module-parameter tags imported from `@/definitions/automatable-parameters`.
The tag is a string in the source; `other s` stands for any string that is
none of the enumerated tags (the JS `switch` falls through for those). -/
inductive ModuleParamType where
  | volume
  | panLeft
  | panRight
  | pitchUp
  | pitchDown
  | filterEnabled
  | filterFreq
  | filterQ
  | filterLfoEnabled
  | filterLfoSpeed
  | filterLfoDepth
  | delayEnabled
  | delayTime
  | delayFeedback
  | delayCutoff
  | delayOffset
  | externalEvent
  | other (tag : String)
  deriving DecidableEq

/-- `audioEvent.mp`: the module-parameter payload of an audio event. -/
structure MP where
  module : ModuleParamType
  value  : ℚ
  glide  : Bool
  deriving DecidableEq

/-- The slice of an audio event read by this module: `audioEvent.mp` and
`audioEvent.seq.mpLength` (the step duration used as glide duration). -/
structure AudioEvent where
  mp       : MP
  mpLength : ℚ
  deriving DecidableEq

/-- A call made on an `AudioParam` by `scheduleParameterChange`. -/
inductive ParamAction where
  | cancelScheduledValues (time : ℚ)
  | setValueAtTime (value time : ℚ)
  | linearRampToValueAtTime (value time : ℚ)
  deriving DecidableEq

/-- Names the `AudioParam` a scheduling call targets.  Per-voice controls are
identified by the voice's position in the live-voice list. -/
inductive ControlId where
  | voiceGain (i : ℕ)
  | voiceFrequency (i : ℕ)
  | voicePlaybackRate (i : ℕ)
  | pannerPan
  | filterFrequency
  | filterQ
  | lfoFrequency
  | lfoAmpGain
  deriving DecidableEq

/-- A voice's signal generator: `OscillatorNode` (with the live value of its
`frequency` param), `AudioBufferSourceNode` (with the live value of its
`playbackRate` param), or any other node kind. -/
inductive Generator where
  | oscillatorNode (frequencyValue : ℚ)
  | audioBufferSourceNode (playbackRateValue : ℚ)
  | other
  deriving DecidableEq

/-- One live voice (an EVENT_VOICE_LIST entry): its generator, its nominal
`frequency`, the live value of its `gain.gain` param, and the `gliding`
flag the scheduler reads and writes on the voice object. -/
structure Voice where
  generator : Generator
  frequency : ℚ
  gainValue : ℚ
  gliding   : Bool
  deriving DecidableEq

/-- `modules.filter`: its `filterEnabled` flag and the live values of the
four `AudioParam`s reached through it (`filter.frequency`, `filter.Q`,
`lfo.frequency`, `lfoAmp.gain`). -/
structure FilterModule where
  filterEnabled        : Bool
  filterFrequencyValue : ℚ
  filterQValue         : ℚ
  lfoFrequencyValue    : ℚ
  lfoAmpGainValue      : ℚ
  deriving DecidableEq

/-- `modules.delay.delay`: the delay node whose four fields `applyDelay`
writes directly. -/
structure DelayNode where
  delay    : ℚ
  feedback : ℚ
  cutoff   : ℚ
  offset   : ℚ
  deriving DecidableEq

/-- `modules.delay`: its `delayEnabled` flag and the inner delay node. -/
structure DelayModule where
  delayEnabled : Bool
  delay        : DelayNode
  deriving DecidableEq

/-- `modules.panner`: the live value of its `pan` param. -/
structure PannerModule where
  panValue : ℚ
  deriving DecidableEq

/-- The per-instrument module state handed to the dispatcher. -/
structure Modules where
  filter : FilterModule
  delay  : DelayModule
  panner : PannerModule
  deriving DecidableEq

/-- `instrument.filter`: only its `lfoType` index is touched here. -/
structure InstrumentFilter where
  lfoType : ℕ
  deriving DecidableEq

/-- The slice of the instrument state the dispatcher mutates. -/
structure Instrument where
  filter : InstrumentFilter
  deriving DecidableEq

/-- The read-only configuration constants consumed from `@/config`
(that config module is not under `src/`; per the spec these are named
maxima/minima passed in as read-only inputs, so they are left abstract). -/
structure Config where
  MAX_FILTER_FREQ      : ℚ
  MAX_FILTER_Q         : ℚ
  MAX_FILTER_LFO_SPEED : ℚ
  MAX_FILTER_LFO_DEPTH : ℚ
  MAX_DELAY_CUTOFF     : ℚ
  MIN_DELAY_OFFSET     : ℚ
  deriving DecidableEq

/-- An observable emission of the dispatch path: a scheduling call on a named
control, a call of the graph-routing collaborator `applyRouting(modules,
output)` (carrying the module state it reads at call time), or a
`createTimer` registration whose firing passes `callbackArg` to the
external callback. -/
inductive Effect where
  | sched (control : ControlId) (action : ParamAction)
  | applyRouting (modules : Modules)
  | createTimer (time : ℚ) (callbackArg : ℕ)
  deriving DecidableEq

/-- Result of `scheduleParameterChange`: the calls made on the `AudioParam`,
in order, and the final `gliding` field of the optional `data` object
(`none` when no `data` object was passed). -/
structure SchedResult where
  actions : List ParamAction
  gliding : Option Bool
  deriving DecidableEq

/-- `scheduleParameterChange(param, value, startTimeInSeconds,
durationInSeconds, doGlide, data)`.  `paramValue` is the live reading
`param.value`; `gliding` is `data.gliding` (with `none` for an absent
`data`).  The first guard mirrors the JS truthiness of
`!doGlide || (data && !data.gliding)`: when no `data` object is passed the
second disjunct is falsy. -/
def scheduleParameterChange (paramValue value startTimeInSeconds durationInSeconds : ℚ)
    (doGlide : Bool) (gliding : Option Bool) : SchedResult :=
  let snap : Bool := !doGlide || (match gliding with
    | some g => !g
    | none   => false)
  let snapActions : List ParamAction :=
    if snap then
      [ParamAction.cancelScheduledValues startTimeInSeconds,
       ParamAction.setValueAtTime (if doGlide then paramValue else value) startTimeInSeconds]
    else []
  if doGlide then
    { actions := snapActions ++
        [ParamAction.linearRampToValueAtTime value (startTimeInSeconds + durationInSeconds)],
      gliding := gliding.map fun _ => true }
  else
    { actions := snapActions, gliding := gliding }

/-- The callback `applyVolumeEnvelope` hands to `processVoices`: schedule the
voice's `gain.gain` toward `value / 100`, passing the voice itself as the
continuation-state object. -/
def volumeEnvelopeVoice (audioEvent : AudioEvent) (startTimeInSeconds : ℚ)
    (i : ℕ) (voice : Voice) : Voice × List Effect :=
  let r := scheduleParameterChange voice.gainValue (audioEvent.mp.value / 100)
    startTimeInSeconds audioEvent.mpLength audioEvent.mp.glide (some voice.gliding)
  ({ voice with gliding := r.gliding.getD voice.gliding },
   r.actions.map (Effect.sched (ControlId.voiceGain i)))

/-- The callback `applyPitchShift` hands to `processVoices`.  Oscillator
voices: `tmp = frequency + frequency / 1200`, `target = tmp * (value/100)`,
then `target += frequency` going up or `target = frequency - target / 2`
going down, scheduled on `generator.frequency`.  Buffer-source voices:
`value / 100` is added to (or subtracted from) the live
`generator.playbackRate.value`, scheduled on `generator.playbackRate`.
Any other generator kind is skipped. -/
def pitchShiftVoice (audioEvent : AudioEvent) (startTimeInSeconds : ℚ)
    (i : ℕ) (voice : Voice) : Voice × List Effect :=
  let mp := audioEvent.mp
  match voice.generator with
  | Generator.oscillatorNode frequencyValue =>
    let tmp := voice.frequency + voice.frequency / 1200
    let t0 := tmp * (mp.value / 100)
    let target :=
      if mp.module = ModuleParamType.pitchUp then t0 + voice.frequency
      else voice.frequency - t0 / 2
    let r := scheduleParameterChange frequencyValue target startTimeInSeconds
      audioEvent.mpLength mp.glide (some voice.gliding)
    ({ voice with gliding := r.gliding.getD voice.gliding },
     r.actions.map (Effect.sched (ControlId.voiceFrequency i)))
  | Generator.audioBufferSourceNode playbackRateValue =>
    let tmp := mp.value / 100
    let target :=
      if mp.module = ModuleParamType.pitchUp then playbackRateValue + tmp
      else playbackRateValue - tmp
    let r := scheduleParameterChange playbackRateValue target startTimeInSeconds
      audioEvent.mpLength mp.glide (some voice.gliding)
    ({ voice with gliding := r.gliding.getD voice.gliding },
     r.actions.map (Effect.sched (ControlId.voicePlaybackRate i)))
  | Generator.other => (voice, [])

/-- The voice-iteration collaborator `processVoices`, index-threaded: applies
the callback to every live voice in order, collecting the updated voices
and the emitted effects.  The index only serves to name each voice's
controls in the trace. -/
def processVoicesFrom (f : ℕ → Voice → Voice × List Effect) :
    ℕ → List Voice → List Voice × List Effect
  | _, [] => ([], [])
  | i, voice :: rest =>
    let r := f i voice
    let rs := processVoicesFrom f (i + 1) rest
    (r.1 :: rs.1, r.2 ++ rs.2)

/-- `processVoices(instrumentEvents, fn)`. -/
def processVoices (voices : List Voice) (f : ℕ → Voice → Voice × List Effect) :
    List Voice × List Effect :=
  processVoicesFrom f 0 voices

/-- `applyVolumeEnvelope(audioEvent, instrumentEvents, startTimeInSeconds)`. -/
def applyVolumeEnvelope (audioEvent : AudioEvent) (voices : List Voice)
    (startTimeInSeconds : ℚ) : List Voice × List Effect :=
  processVoices voices (volumeEnvelopeVoice audioEvent startTimeInSeconds)

/-- `applyPitchShift(audioEvent, instrumentEvents, startTimeInSeconds)`. -/
def applyPitchShift (audioEvent : AudioEvent) (voices : List Voice)
    (startTimeInSeconds : ℚ) : List Voice × List Effect :=
  processVoices voices (pitchShiftVoice audioEvent startTimeInSeconds)

/-- `applyPanning(audioEvent, modules, startTimeInSeconds)`: one scheduling
call on `modules.panner.pan`, negated target for a `PAN_LEFT` tag, and no
continuation-state object. -/
def applyPanning (audioEvent : AudioEvent) (modules : Modules)
    (startTimeInSeconds : ℚ) : List Effect :=
  let mp := audioEvent.mp
  let target := mp.value / 100
  (scheduleParameterChange modules.panner.panValue
    (if mp.module = ModuleParamType.panLeft then -target else target)
    startTimeInSeconds audioEvent.mpLength mp.glide none).actions.map
    (Effect.sched ControlId.pannerPan)

/-- `applyFilter(audioEvent, modules, startTimeInSeconds)`: schedules the
matching filter control, scaled by the configured maxima; the LFO-depth
target is additionally multiplied by the live
`module.filter.frequency.value`.  No continuation-state object is passed. -/
def applyFilter (cfg : Config) (audioEvent : AudioEvent) (modules : Modules)
    (startTimeInSeconds : ℚ) : List Effect :=
  let mp := audioEvent.mp
  let doGlide := mp.glide
  let durationInSeconds := audioEvent.mpLength
  let module := modules.filter
  let target := mp.value / 100
  match mp.module with
  | ModuleParamType.filterFreq =>
    (scheduleParameterChange module.filterFrequencyValue (target * cfg.MAX_FILTER_FREQ)
      startTimeInSeconds durationInSeconds doGlide none).actions.map
      (Effect.sched ControlId.filterFrequency)
  | ModuleParamType.filterQ =>
    (scheduleParameterChange module.filterQValue (target * cfg.MAX_FILTER_Q)
      startTimeInSeconds durationInSeconds doGlide none).actions.map
      (Effect.sched ControlId.filterQ)
  | ModuleParamType.filterLfoSpeed =>
    (scheduleParameterChange module.lfoFrequencyValue (target * cfg.MAX_FILTER_LFO_SPEED)
      startTimeInSeconds durationInSeconds doGlide none).actions.map
      (Effect.sched ControlId.lfoFrequency)
  | ModuleParamType.filterLfoDepth =>
    (scheduleParameterChange module.lfoAmpGainValue
      (target * cfg.MAX_FILTER_LFO_DEPTH / 100 * module.filterFrequencyValue)
      startTimeInSeconds durationInSeconds doGlide none).actions.map
      (Effect.sched ControlId.lfoAmpGain)
  | _ => []

/-- `applyDelay(audioEvent, modules)`: immediate field writes on
`modules.delay.delay`, no scheduling. -/
def applyDelay (cfg : Config) (audioEvent : AudioEvent) (module : DelayNode) : DelayNode :=
  let mp := audioEvent.mp
  let target := mp.value / 100
  match mp.module with
  | ModuleParamType.delayTime     => { module with delay := target }
  | ModuleParamType.delayFeedback => { module with feedback := target }
  | ModuleParamType.delayCutoff   => { module with cutoff := target * cfg.MAX_DELAY_CUTOFF }
  | ModuleParamType.delayOffset   => { module with offset := cfg.MIN_DELAY_OFFSET + target }
  | _ => module

/-- Round-half-to-even on rationals, the tie-breaking rule of IEEE-754
round-to-nearest. -/
def roundHalfEven (q : ℚ) : ℤ :=
  let f := ⌊q⌋
  let r := q - f
  if r < 1 / 2 then f
  else if 1 / 2 < r then f + 1
  else if f % 2 = 0 then f else f + 1

/-- Fuel-based floor of the base-2 logarithm (0 for n ≤ 1). -/
def floorLog2Aux : ℕ → ℕ → ℕ
  | 0, _ => 0
  | fuel + 1, n => if n ≤ 1 then 0 else floorLog2Aux fuel (n / 2) + 1

/-- Floor of the base-2 logarithm of a natural number. -/
def floorLog2 (n : ℕ) : ℕ := floorLog2Aux n n

/-- The IEEE-754 binary64 value nearest a rational (round-to-nearest,
ties-to-even): the significand is rounded to 53 bits.  This model is exact
for inputs that are `0` or lie in `[1, 2^53)` — every number it is applied
to in this development (products of values in `[0, 100]` with `RESOLUTION`). -/
def roundToDouble (q : ℚ) : ℚ :=
  if q = 0 then 0
  else
    let e := floorLog2 ⌊q⌋.toNat
    let scale : ℚ := 2 ^ (52 - e)
    (roundHalfEven (q * scale) : ℚ) / scale

/-- `const RESOLUTION = 255 / 100` of number-util, evaluated in binary64
(the double nearest 2.55, which is slightly below 2.55). -/
def RESOLUTION : ℚ := roundToDouble (255 / 100)

/-- Binary64 product of two binary64 values. -/
def dmul (a b : ℚ) : ℚ := roundToDouble (a * b)

/-- ECMAScript `Math.round`, exact on the rational value of a double:
nearest integer, ties toward positive infinity. -/
def jsMathRound (q : ℚ) : ℤ := ⌊q + 1 / 2⌋

/-- Hex digits (most significant first, as numeric values 0–15) of a natural
number: `n.toString(16)`. -/
def hexDigitsAux : ℕ → ℕ → List ℕ
  | 0, n => [n % 16]
  | fuel + 1, n => if n < 16 then [n] else hexDigitsAux fuel (n / 16) ++ [n % 16]

/-- Hex digit list of a natural number (fuel `n` always suffices). -/
def hexDigits (n : ℕ) : List ℕ := hexDigitsAux n n

/-- `toHex(value)` from number-util:
`Math.round(value * RESOLUTION).toString(16)`, left-padded with `"0"` to two
digits; digits are modelled by their numeric values.  The multiplication is
a binary64 product. -/
def toHex (value : ℚ) : List ℕ :=
  let hex := hexDigits (jsMathRound (dmul value RESOLUTION)).toNat
  if hex.length = 1 then 0 :: hex else hex

/-- Reparsing a hex digit list as an integer:
`parseInt("0x" + hexString, 16)`. -/
def parseIntHex (digits : List ℕ) : ℕ :=
  digits.foldl (fun a d => 16 * a + d) 0

/-- The integer the external callback receives for an event value:
`parseInt("0x" + toHex(event.mp.value), 16)`. -/
def externalEventValue (value : ℚ) : ℕ := parseIntHex (toHex value)

/-- `applyExternalEvent(audioContext, event, startTimeInSeconds,
eventCallback)`: a no-op without a callback, otherwise one `createTimer`
registration at the start time whose firing passes the denormalized value
to the callback. -/
def applyExternalEvent (audioEvent : AudioEvent) (startTimeInSeconds : ℚ)
    (hasEventCallback : Bool) : List Effect :=
  if hasEventCallback then
    [Effect.createTimer startTimeInSeconds (externalEventValue audioEvent.mp.value)]
  else []

/-- The `filterTypes` list of the source module. -/
def filterTypes : List String := ["off", "sine", "square", "sawtooth", "triangle"]

/-- What `applyModuleParamChange` leaves behind: the updated module state,
instrument state and voice list, plus the ordered trace of emitted calls. -/
structure DispatchResult where
  modules    : Modules
  instrument : Instrument
  voices     : List Voice
  effects    : List Effect
  deriving DecidableEq

/-- `applyModuleParamChange(audioContext, audioEvent, modules, instrument,
instrumentEvents, startTimeInSeconds, output, optEventCallback)`.
`rangeToIndex` is the array-util collaborator (not under `src/`), passed in
abstractly; `hasEventCallback` models whether `optEventCallback` is set.
The opaque `audioContext`/`output` handles carry no embeddable state. -/
def applyModuleParamChange (cfg : Config) (rangeToIndex : List String → ℚ → ℕ)
    (audioEvent : AudioEvent) (modules : Modules) (instrument : Instrument)
    (voices : List Voice) (startTimeInSeconds : ℚ) (hasEventCallback : Bool) :
    DispatchResult :=
  match audioEvent.mp.module with
  | ModuleParamType.volume =>
    let r := applyVolumeEnvelope audioEvent voices startTimeInSeconds
    ⟨modules, instrument, r.1, r.2⟩
  | ModuleParamType.panLeft | ModuleParamType.panRight =>
    ⟨modules, instrument, voices, applyPanning audioEvent modules startTimeInSeconds⟩
  | ModuleParamType.pitchUp | ModuleParamType.pitchDown =>
    let r := applyPitchShift audioEvent voices startTimeInSeconds
    ⟨modules, instrument, r.1, r.2⟩
  | ModuleParamType.filterEnabled =>
    let modules' :=
      { modules with filter :=
        { modules.filter with filterEnabled := decide (50 ≤ audioEvent.mp.value) } }
    ⟨modules', instrument, voices, [Effect.applyRouting modules']⟩
  | ModuleParamType.filterLfoEnabled =>
    let instrument' :=
      { instrument with filter :=
        { instrument.filter with lfoType := rangeToIndex filterTypes audioEvent.mp.value } }
    ⟨modules, instrument', voices, [Effect.applyRouting modules]⟩
  | ModuleParamType.filterFreq | ModuleParamType.filterQ
  | ModuleParamType.filterLfoSpeed | ModuleParamType.filterLfoDepth =>
    ⟨modules, instrument, voices, applyFilter cfg audioEvent modules startTimeInSeconds⟩
  | ModuleParamType.delayEnabled =>
    let modules' :=
      { modules with delay :=
        { modules.delay with delayEnabled := decide (50 ≤ audioEvent.mp.value) } }
    ⟨modules', instrument, voices, [Effect.applyRouting modules']⟩
  | ModuleParamType.delayTime | ModuleParamType.delayFeedback
  | ModuleParamType.delayCutoff | ModuleParamType.delayOffset =>
    ⟨{ modules with delay :=
        { modules.delay with delay := applyDelay cfg audioEvent modules.delay.delay } },
     instrument, voices, []⟩
  | ModuleParamType.externalEvent =>
    ⟨modules, instrument, voices,
     applyExternalEvent audioEvent startTimeInSeconds hasEventCallback⟩
  | ModuleParamType.other _ =>
    ⟨modules, instrument, voices, []⟩

/-- Sample configuration used for concrete evaluations. -/
def sampleConfig : Config := ⟨880, 15, 25, 100, 22050, -(1 / 2)⟩

/-- Sample delay node used for concrete evaluations. -/
def sampleDelayNode : DelayNode := ⟨1 / 3, 1 / 5, 1500, 0⟩

/-- Sample module state with a given live filter-cutoff reading. -/
def sampleModules (cutoff : ℚ) : Modules :=
  ⟨⟨false, cutoff, 1, 1, 1⟩, ⟨false, sampleDelayNode⟩, ⟨0⟩⟩

/-- C1: when `doGlide` is false, or a continuation object with a false
`gliding` flag is passed, `scheduleParameterChange` first cancels all
scheduled changes on the control from the start time onward and sets the
control's value at the start time (to the control's current value when
gliding, otherwise directly to the target); then, whenever `doGlide` is
true, it appends a linear ramp to the target completing at start time plus
duration and, if a continuation object was provided, sets its `gliding`
flag to true. -/
theorem scheduleParameterChange_spec
    (paramValue value startTime duration : ℚ) (doGlide : Bool) (gliding : Option Bool)
    (h : doGlide = false ∨ gliding = some false) :
    scheduleParameterChange paramValue value startTime duration doGlide gliding =
      { actions :=
          [ParamAction.cancelScheduledValues startTime,
           ParamAction.setValueAtTime (if doGlide then paramValue else value) startTime] ++
            (if doGlide then
              [ParamAction.linearRampToValueAtTime value (startTime + duration)]
            else []),
        gliding := if doGlide then gliding.map (fun _ => true) else gliding } := by
  rcases h with h | h
  · subst h
    simp [scheduleParameterChange]
  · subst h
    cases doGlide <;> simp [scheduleParameterChange]

/-- Witness for C1 at concrete inputs (`doGlide` true, continuation flag
false): the hypothesis holds and the call cancels, snaps to the control's
current value 3, ramps to 7, and flips the continuation flag. -/
theorem scheduleParameterChange_spec_witness :
    ((true : Bool) = false ∨ (some false : Option Bool) = some false) ∧
      scheduleParameterChange 3 7 1 2 true (some false) =
        { actions := [ParamAction.cancelScheduledValues 1,
                      ParamAction.setValueAtTime 3 1,
                      ParamAction.linearRampToValueAtTime 7 (1 + 2)],
          gliding := some true } := by
  refine ⟨Or.inr rfl, ?_⟩
  have h := scheduleParameterChange_spec 3 7 1 2 true (some false) (Or.inr rfl)
  simpa using h

/-- C2: starting from a continuation object whose `gliding` flag is false,
the first gliding call cancels, snaps to the control's current value,
ramps, and sets `gliding` to true; the second gliding call, fed the
continuation state the first left behind, only ramps — it neither cancels
nor snaps. -/
theorem scheduleParameterChange_glide_continuation
    (pv1 pv2 v1 v2 t1 t2 d1 d2 : ℚ) :
    scheduleParameterChange pv1 v1 t1 d1 true (some false) =
      { actions := [ParamAction.cancelScheduledValues t1,
                    ParamAction.setValueAtTime pv1 t1,
                    ParamAction.linearRampToValueAtTime v1 (t1 + d1)],
        gliding := some true } ∧
    scheduleParameterChange pv2 v2 t2 d2 true
        (scheduleParameterChange pv1 v1 t1 d1 true (some false)).gliding =
      { actions := [ParamAction.linearRampToValueAtTime v2 (t2 + d2)],
        gliding := some true } := by
  constructor <;> simp [scheduleParameterChange]

/-- C3 fails as stated: a pan event with `glide` set — a caller that passes
no continuation object — emits a single linear ramp and no
`cancelScheduledValues` and no `setValueAtTime`, so it does not "start
fresh". -/
theorem applyPanning_glide_emits_only_ramp :
    applyPanning ⟨⟨ModuleParamType.panLeft, 50, true⟩, 2⟩ (sampleModules 100) 10 =
      [Effect.sched ControlId.pannerPan
        (ParamAction.linearRampToValueAtTime (-(50 / 100)) (10 + 2))] := by
  simp [applyPanning, scheduleParameterChange, sampleModules]

/-- C3 amended: a call without a continuation object cancels pending changes
and sets the control directly to the target only when `doGlide` is false;
when `doGlide` is true it programs just the linear ramp, with no
cancellation and no snap. -/
theorem scheduleParameterChange_no_continuation
    (paramValue value startTime duration : ℚ) (doGlide : Bool) :
    scheduleParameterChange paramValue value startTime duration doGlide none =
      if doGlide then
        { actions := [ParamAction.linearRampToValueAtTime value (startTime + duration)],
          gliding := none }
      else
        { actions := [ParamAction.cancelScheduledValues startTime,
                      ParamAction.setValueAtTime value startTime],
          gliding := none } := by
  cases doGlide <;> simp [scheduleParameterChange]

/-- C4: per voice, an oscillator generator gets its frequency scheduled to
`baseFrequency + delta` (pitch-up) or `baseFrequency - delta / 2`
(pitch-down) with `delta = baseFrequency * (1 + 1/1200) * (value/100)`,
while a buffer-source generator gets its playback rate scheduled to the
rate control's current value plus (pitch-up) or minus (pitch-down)
`value / 100`. -/
theorem applyPitchShift_targets
    (value startTime duration f fv prv gainV : ℚ) (doGlide gl : Bool) (i : ℕ) :
    (pitchShiftVoice ⟨⟨ModuleParamType.pitchUp, value, doGlide⟩, duration⟩ startTime i
        ⟨Generator.oscillatorNode fv, f, gainV, gl⟩).2 =
      (scheduleParameterChange fv (f + f * (1 + 1 / 1200) * (value / 100))
          startTime duration doGlide (some gl)).actions.map
        (Effect.sched (ControlId.voiceFrequency i)) ∧
    (pitchShiftVoice ⟨⟨ModuleParamType.pitchDown, value, doGlide⟩, duration⟩ startTime i
        ⟨Generator.oscillatorNode fv, f, gainV, gl⟩).2 =
      (scheduleParameterChange fv (f - f * (1 + 1 / 1200) * (value / 100) / 2)
          startTime duration doGlide (some gl)).actions.map
        (Effect.sched (ControlId.voiceFrequency i)) ∧
    (pitchShiftVoice ⟨⟨ModuleParamType.pitchUp, value, doGlide⟩, duration⟩ startTime i
        ⟨Generator.audioBufferSourceNode prv, f, gainV, gl⟩).2 =
      (scheduleParameterChange prv (prv + value / 100)
          startTime duration doGlide (some gl)).actions.map
        (Effect.sched (ControlId.voicePlaybackRate i)) ∧
    (pitchShiftVoice ⟨⟨ModuleParamType.pitchDown, value, doGlide⟩, duration⟩ startTime i
        ⟨Generator.audioBufferSourceNode prv, f, gainV, gl⟩).2 =
      (scheduleParameterChange prv (prv - value / 100)
          startTime duration doGlide (some gl)).actions.map
        (Effect.sched (ControlId.voicePlaybackRate i)) := by
  refine ⟨?_, ?_, ?_, ?_⟩
  · have harith : (f + f / 1200) * (value / 100) + f
        = f + f * (1 + 1 / 1200) * (value / 100) := by ring
    simp [pitchShiftVoice, harith]
  · have harith : f - (f + f / 1200) * (value / 100) / 2
        = f - f * (1 + 1 / 1200) * (value / 100) / 2 := by ring
    simp [pitchShiftVoice, harith]
  · simp [pitchShiftVoice]
  · simp [pitchShiftVoice]

/-- Evaluation helper: `roundHalfEven` at a point whose fractional part is
below one half. -/
theorem roundHalfEven_eval_lt (q : ℚ) (n : ℤ) (hfl : ⌊q⌋ = n) (hr : q - n < 1 / 2) :
    roundHalfEven q = n := by
  unfold roundHalfEven
  simp only [hfl]
  rw [if_pos hr]

/-- Evaluation helper: unfolds `roundToDouble` once all of its pieces are
known. -/
theorem roundToDouble_eval (q : ℚ) (n : ℤ) (e : ℕ) (m : ℤ)
    (hq : ¬ q = 0) (hfl : ⌊q⌋ = n) (hlog : floorLog2 n.toNat = e)
    (hrhe : roundHalfEven (q * 2 ^ (52 - e)) = m) :
    roundToDouble q = (m : ℚ) / 2 ^ (52 - e) := by
  unfold roundToDouble
  rw [if_neg hq]
  simp only [hfl, hlog, hrhe]

/-- The binary64 value of `255 / 100` is `2871044762448691 * 2⁻⁵⁰`, which is
slightly below 2.55. -/
theorem RESOLUTION_eq : RESOLUTION = 2871044762448691 / 1125899906842624 := by
  have h := roundToDouble_eval (255 / 100) 2 1 5742089524897382
    (by norm_num) (by norm_num)
    rfl
    (roundHalfEven_eval_lt _ _ (by norm_num) (by norm_num))
  rw [RESOLUTION, h]
  norm_num

/-- The binary64 product `50 * RESOLUTION` is `8972014882652159 * 2⁻⁴⁶`,
which is 127.49999999999999: strictly below 127.5. -/
theorem dmul_50_RESOLUTION : dmul 50 RESOLUTION = 8972014882652159 / 70368744177664 := by
  have hprod : (50 : ℚ) * RESOLUTION = 71776119061217275 / 562949953421312 := by
    rw [RESOLUTION_eq]; norm_num
  have h := roundToDouble_eval ((50 : ℚ) * RESOLUTION) 127 6 8972014882652159
    (by rw [hprod]; norm_num) (by rw [hprod]; norm_num)
    rfl
    (by rw [hprod]; exact roundHalfEven_eval_lt _ _ (by norm_num) (by norm_num))
  rw [dmul, h]
  norm_num

/-- The binary64 product `100 * RESOLUTION` is `8972014882652159 * 2⁻⁴⁵`,
just below 255 but within half a unit of it. -/
theorem dmul_100_RESOLUTION : dmul 100 RESOLUTION = 8972014882652159 / 35184372088832 := by
  have hprod : (100 : ℚ) * RESOLUTION = 71776119061217275 / 281474976710656 := by
    rw [RESOLUTION_eq]; norm_num
  have h := roundToDouble_eval ((100 : ℚ) * RESOLUTION) 254 7 8972014882652159
    (by rw [hprod]; norm_num) (by rw [hprod]; norm_num)
    rfl
    (by rw [hprod]; exact roundHalfEven_eval_lt _ _ (by norm_num) (by norm_num))
  rw [dmul, h]
  norm_num

/-- The binary64 product `0 * RESOLUTION` is zero. -/
theorem dmul_0_RESOLUTION : dmul 0 RESOLUTION = 0 := by
  rw [dmul]
  norm_num [roundToDouble]

/-- The external callback receives 127 for event value 50. -/
theorem externalEventValue_50 : externalEventValue 50 = 127 := by
  have hjs : jsMathRound (dmul 50 RESOLUTION) = 127 := by
    rw [dmul_50_RESOLUTION, jsMathRound]
    norm_num
  unfold externalEventValue toHex
  rw [hjs]
  rfl

/-- The external callback receives 255 for event value 100. -/
theorem externalEventValue_100 : externalEventValue 100 = 255 := by
  have hjs : jsMathRound (dmul 100 RESOLUTION) = 255 := by
    rw [dmul_100_RESOLUTION, jsMathRound]
    norm_num
  unfold externalEventValue toHex
  rw [hjs]
  rfl

/-- The external callback receives 0 for event value 0. -/
theorem externalEventValue_0 : externalEventValue 0 = 0 := by
  have hjs : jsMathRound (dmul 0 RESOLUTION) = 0 := by
    rw [dmul_0_RESOLUTION, jsMathRound]
    norm_num
  unfold externalEventValue toHex
  rw [hjs]
  rfl

/-- C5 fails at value 50: `50 * (255 / 100)` evaluates in binary64 to
127.49999999999999, so `Math.round` yields 127 — not the 128 the claim
states — and the scheduled timer delivers 127 to the callback. -/
theorem externalEvent_value50_yields_127_not_128 :
    externalEventValue 50 = 127 ∧ (127 : ℕ) ≠ 128 ∧
      applyExternalEvent ⟨⟨ModuleParamType.externalEvent, 50, false⟩, 1⟩ 3 true =
        [Effect.createTimer 3 127] := by
  refine ⟨externalEventValue_50, by decide, ?_⟩
  simp [applyExternalEvent, externalEventValue_50]

/-- C5 amended: with a callback registered, an external-event automation
schedules exactly one timer at the start time delivering the integer
obtained by formatting `Math.round(value * 2.55)` (computed in binary64
arithmetic) as a zero-padded two-digit hexadecimal string and reparsing
it; value 50 yields 127 (the binary64 product is below 127.5), value 100
yields 255, and value 0 yields 0. -/
theorem applyExternalEvent_spec (audioEvent : AudioEvent) (startTime : ℚ) :
    applyExternalEvent audioEvent startTime true =
        [Effect.createTimer startTime (externalEventValue audioEvent.mp.value)] ∧
      externalEventValue 50 = 127 ∧
      externalEventValue 100 = 255 ∧
      externalEventValue 0 = 0 :=
  ⟨rfl, externalEventValue_50, externalEventValue_100, externalEventValue_0⟩

/-- C6 fails as stated: at event value 0 the depth target is 0 whatever the
live cutoff reading, so two events with identical value but different
cutoff readings produce identical scheduling calls. -/
theorem applyFilter_lfoDepth_value0_insensitive :
    (sampleModules 100).filter.filterFrequencyValue ≠
        (sampleModules 200).filter.filterFrequencyValue ∧
      applyFilter sampleConfig ⟨⟨ModuleParamType.filterLfoDepth, 0, false⟩, 1⟩
          (sampleModules 100) 3 =
        applyFilter sampleConfig ⟨⟨ModuleParamType.filterLfoDepth, 0, false⟩, 1⟩
          (sampleModules 200) 3 := by
  constructor
  · norm_num [sampleModules]
  · norm_num [applyFilter, scheduleParameterChange, sampleModules, sampleConfig]

/-- C6 amended: the filter-lfo-depth target equals
`(value/100) * (maxDepth/100)` multiplied by the filter's current cutoff
reading, and — provided the event value and the configured maximum depth
are nonzero — different live cutoff readings give different targets. -/
theorem applyFilter_lfoDepth_spec (cfg : Config) (value startTime duration c1 c2 : ℚ)
    (doGlide : Bool) (modules : Modules)
    (hv : value ≠ 0) (hd : cfg.MAX_FILTER_LFO_DEPTH ≠ 0) (hc : c1 ≠ c2) :
    applyFilter cfg ⟨⟨ModuleParamType.filterLfoDepth, value, doGlide⟩, duration⟩
        modules startTime =
      (scheduleParameterChange modules.filter.lfoAmpGainValue
          (value / 100 * (cfg.MAX_FILTER_LFO_DEPTH / 100) *
            modules.filter.filterFrequencyValue)
          startTime duration doGlide none).actions.map
        (Effect.sched ControlId.lfoAmpGain) ∧
    value / 100 * (cfg.MAX_FILTER_LFO_DEPTH / 100) * c1 ≠
      value / 100 * (cfg.MAX_FILTER_LFO_DEPTH / 100) * c2 := by
  constructor
  · have harith : value / 100 * cfg.MAX_FILTER_LFO_DEPTH / 100 *
        modules.filter.filterFrequencyValue
        = value / 100 * (cfg.MAX_FILTER_LFO_DEPTH / 100) *
          modules.filter.filterFrequencyValue := by ring
    simp [applyFilter, harith]
  · intro hEq
    exact hc (mul_left_cancel₀
      (mul_ne_zero (div_ne_zero hv (by norm_num)) (div_ne_zero hd (by norm_num))) hEq)

/-- Witness for C6 amended at concrete inputs: value 50, configured maximum
depth 100, cutoff readings 100 and 200. -/
theorem applyFilter_lfoDepth_spec_witness :
    (50 : ℚ) ≠ 0 ∧ sampleConfig.MAX_FILTER_LFO_DEPTH ≠ 0 ∧ (100 : ℚ) ≠ 200 ∧
      (applyFilter sampleConfig ⟨⟨ModuleParamType.filterLfoDepth, 50, false⟩, 1⟩
          (sampleModules 100) 3 =
        (scheduleParameterChange (sampleModules 100).filter.lfoAmpGainValue
            (50 / 100 * (sampleConfig.MAX_FILTER_LFO_DEPTH / 100) *
              (sampleModules 100).filter.filterFrequencyValue)
            3 1 false none).actions.map (Effect.sched ControlId.lfoAmpGain) ∧
        50 / 100 * (sampleConfig.MAX_FILTER_LFO_DEPTH / 100) * (100 : ℚ) ≠
          50 / 100 * (sampleConfig.MAX_FILTER_LFO_DEPTH / 100) * 200) := by
  refine ⟨by norm_num, by norm_num [sampleConfig], by norm_num, ?_⟩
  exact applyFilter_lfoDepth_spec sampleConfig 50 3 1 100 200 false (sampleModules 100)
    (by norm_num) (by norm_num [sampleConfig]) (by norm_num)

/-- C7: each delay event writes its target directly into the delay node —
time to `value/100`, feedback to `value/100`, cutoff to
`value/100 * maxCutoff`, offset to `minOffset + value/100` — the dispatcher
emits no scheduling call for it, and the resulting state does not mention
the event's glide flag, its duration, or the start time. -/
theorem applyDelay_spec (cfg : Config) (rangeToIndex : List String → ℚ → ℕ)
    (value startTime duration : ℚ) (glide : Bool) (modules : Modules)
    (instrument : Instrument) (voices : List Voice) (hasEventCallback : Bool) :
    applyModuleParamChange cfg rangeToIndex
        ⟨⟨ModuleParamType.delayTime, value, glide⟩, duration⟩
        modules instrument voices startTime hasEventCallback =
      ⟨{ modules with delay := { modules.delay with delay :=
          { modules.delay.delay with delay := value / 100 } } },
        instrument, voices, []⟩ ∧
    applyModuleParamChange cfg rangeToIndex
        ⟨⟨ModuleParamType.delayFeedback, value, glide⟩, duration⟩
        modules instrument voices startTime hasEventCallback =
      ⟨{ modules with delay := { modules.delay with delay :=
          { modules.delay.delay with feedback := value / 100 } } },
        instrument, voices, []⟩ ∧
    applyModuleParamChange cfg rangeToIndex
        ⟨⟨ModuleParamType.delayCutoff, value, glide⟩, duration⟩
        modules instrument voices startTime hasEventCallback =
      ⟨{ modules with delay := { modules.delay with delay :=
          { modules.delay.delay with cutoff := value / 100 * cfg.MAX_DELAY_CUTOFF } } },
        instrument, voices, []⟩ ∧
    applyModuleParamChange cfg rangeToIndex
        ⟨⟨ModuleParamType.delayOffset, value, glide⟩, duration⟩
        modules instrument voices startTime hasEventCallback =
      ⟨{ modules with delay := { modules.delay with delay :=
          { modules.delay.delay with offset := cfg.MIN_DELAY_OFFSET + value / 100 } } },
        instrument, voices, []⟩ := by
  refine ⟨rfl, rfl, rfl, rfl⟩

/-- C8: a panning event makes exactly one scheduling call on the shared pan
control, with target `-(value/100)` for a pan-left tag and `value/100` for
a pan-right tag; at value 100 those targets are -1 and 1, and at value 0
both are 0. -/
theorem applyPanning_spec (value startTime duration : ℚ) (glide : Bool) (modules : Modules) :
    (applyPanning ⟨⟨ModuleParamType.panLeft, value, glide⟩, duration⟩ modules startTime =
        (scheduleParameterChange modules.panner.panValue (-(value / 100))
            startTime duration glide none).actions.map (Effect.sched ControlId.pannerPan)) ∧
    (applyPanning ⟨⟨ModuleParamType.panRight, value, glide⟩, duration⟩ modules startTime =
        (scheduleParameterChange modules.panner.panValue (value / 100)
            startTime duration glide none).actions.map (Effect.sched ControlId.pannerPan)) ∧
    (-(100 / 100) : ℚ) = -1 ∧ ((100 : ℚ) / 100 = 1) ∧ (-(0 / 100) : ℚ) = 0 ∧
      ((0 : ℚ) / 100 = 0) := by
  refine ⟨?_, ?_, by norm_num, by norm_num, by norm_num, by norm_num⟩
  · simp [applyPanning]
  · simp [applyPanning]

/-- Splitting the voice iteration over a list concatenation. -/
theorem processVoicesFrom_append (f : ℕ → Voice → Voice × List Effect) (i : ℕ)
    (l1 l2 : List Voice) :
    processVoicesFrom f i (l1 ++ l2) =
      ((processVoicesFrom f i l1).1 ++ (processVoicesFrom f (i + l1.length) l2).1,
       (processVoicesFrom f i l1).2 ++ (processVoicesFrom f (i + l1.length) l2).2) := by
  induction l1 generalizing i with
  | nil => simp [processVoicesFrom]
  | cons v vs ih =>
    have hidx : i + 1 + vs.length = i + (vs.length + 1) := by omega
    simp [processVoicesFrom, ih (i + 1), hidx]

/-- C9: the dispatch path treats all three contract gaps as silent no-ops —
an unrecognized module tag leaves every piece of state unchanged and emits
nothing; a voice whose generator is neither an oscillator nor a buffer
source is left untouched by the pitch applier while the voices before and
after it are still processed; and an external event without a registered
callback emits nothing, both at the applier and through the dispatcher. -/
theorem dispatch_defensive_behaviour :
    (∀ (cfg : Config) (rangeToIndex : List String → ℚ → ℕ) (tag : String)
        (value startTime duration : ℚ) (glide : Bool) (modules : Modules)
        (instrument : Instrument) (voices : List Voice) (hasEventCallback : Bool),
      applyModuleParamChange cfg rangeToIndex
          ⟨⟨ModuleParamType.other tag, value, glide⟩, duration⟩
          modules instrument voices startTime hasEventCallback =
        ⟨modules, instrument, voices, []⟩) ∧
    (∀ (audioEvent : AudioEvent) (startTime : ℚ) (i : ℕ) (freq gainV : ℚ) (gl : Bool),
      pitchShiftVoice audioEvent startTime i ⟨Generator.other, freq, gainV, gl⟩ =
        (⟨Generator.other, freq, gainV, gl⟩, [])) ∧
    (∀ (audioEvent : AudioEvent) (startTime : ℚ) (pre post : List Voice)
        (freq gainV : ℚ) (gl : Bool),
      applyPitchShift audioEvent (pre ++ ⟨Generator.other, freq, gainV, gl⟩ :: post)
          startTime =
        ((processVoicesFrom (pitchShiftVoice audioEvent startTime) 0 pre).1 ++
            ⟨Generator.other, freq, gainV, gl⟩ ::
              (processVoicesFrom (pitchShiftVoice audioEvent startTime)
                (pre.length + 1) post).1,
          (processVoicesFrom (pitchShiftVoice audioEvent startTime) 0 pre).2 ++
            (processVoicesFrom (pitchShiftVoice audioEvent startTime)
              (pre.length + 1) post).2)) ∧
    (∀ (audioEvent : AudioEvent) (startTime : ℚ),
      applyExternalEvent audioEvent startTime false = []) ∧
    (∀ (cfg : Config) (rangeToIndex : List String → ℚ → ℕ)
        (value startTime duration : ℚ) (glide : Bool) (modules : Modules)
        (instrument : Instrument) (voices : List Voice),
      applyModuleParamChange cfg rangeToIndex
          ⟨⟨ModuleParamType.externalEvent, value, glide⟩, duration⟩
          modules instrument voices startTime false =
        ⟨modules, instrument, voices, []⟩) := by
  refine ⟨?_, ?_, ?_, ?_, ?_⟩
  · intros; rfl
  · intros; rfl
  · intro audioEvent startTime pre post freq gainV gl
    unfold applyPitchShift processVoices
    rw [processVoicesFrom_append]
    simp [processVoicesFrom, pitchShiftVoice]
  · intros; rfl
  · intros; rfl

/-- C10: a filter-enabled or delay-enabled event sets the corresponding
enabled flag to the truth value of `value ≥ 50`, and the single routing
call the dispatcher emits already carries the updated module state. -/
theorem enabled_threshold_spec (cfg : Config) (rangeToIndex : List String → ℚ → ℕ)
    (value startTime duration : ℚ) (glide : Bool) (modules : Modules)
    (instrument : Instrument) (voices : List Voice) (hasEventCallback : Bool) :
    applyModuleParamChange cfg rangeToIndex
        ⟨⟨ModuleParamType.filterEnabled, value, glide⟩, duration⟩
        modules instrument voices startTime hasEventCallback =
      ⟨{ modules with filter :=
          { modules.filter with filterEnabled := decide (50 ≤ value) } },
        instrument, voices,
        [Effect.applyRouting
          { modules with filter :=
            { modules.filter with filterEnabled := decide (50 ≤ value) } }]⟩ ∧
    applyModuleParamChange cfg rangeToIndex
        ⟨⟨ModuleParamType.delayEnabled, value, glide⟩, duration⟩
        modules instrument voices startTime hasEventCallback =
      ⟨{ modules with delay :=
          { modules.delay with delayEnabled := decide (50 ≤ value) } },
        instrument, voices,
        [Effect.applyRouting
          { modules with delay :=
            { modules.delay with delayEnabled := decide (50 ≤ value) } }]⟩ ∧
    (decide (50 ≤ value) = true ↔ 50 ≤ value) := by
  refine ⟨rfl, rfl, by simp⟩

end ModuleAutomation
